import Mathlib

/-!
Shallow embedding of the Namron 4512785 Zigbee external converter.

The repository holds two snapshots of the converter:
* `src/unnamed/part_000` - converter version 1.4.0 ("cleaned for Z2M
  submission"); definitions without a suffix below come from this file;
* `src/namron_30a_relay.mjs` - an earlier variant; definitions with the
  `_mjs` suffix come from this file.

Modelling conventions: raw wire values are `ℤ` (or `ℚ` where the JavaScript
code only checks `typeof raw === 'number'`), JavaScript numbers are `ℚ`,
a thrown exception is `Option.none` (or an aborted trace in the configure
model), JavaScript objects and the global poll-timer `Map` are association
lists `List (String × _)` in insertion order, and `undefined`/`null` inputs
are ruled out by the types.  `Math.round` is `⌊x + 1/2⌋` (half toward +∞),
which is exact on the rationals considered here.
-/

/-- JavaScript `Math.round`: `Math.round(x) = ⌊x + 0.5⌋`, rounding halves
toward positive infinity. -/
def jsRound (q : ℚ) : ℤ := ⌊q + 1/2⌋

/-- JavaScript truthiness of an integer wire value: `0` is falsy, every
other integer is truthy. -/
def jsTruthy (n : ℤ) : Bool := n ≠ 0

/-- Modelled from the spec: "decode = raw / scaleFactor, rounded to ...
decimal place(s)" - rounding a rational to `d` decimal places with
JavaScript `Math.round` semantics, as the converter does with
`Math.round(x * 10^d) / 10^d`. -/
def roundTo (d : ℕ) (q : ℚ) : ℚ := (jsRound (q * 10 ^ d) : ℚ) / 10 ^ d

/-- Modelled from the spec: "numeric rounding on encode uses
round-half-away-from-zero".  For `q ≥ 0` this is `⌊q + 1/2⌋`; for `q < 0`
it mirrors that through zero. -/
def roundHalfAwayFromZero (q : ℚ) : ℤ :=
  if 0 ≤ q then ⌊q + 1/2⌋ else -⌊-q + 1/2⌋

/-- JavaScript `String.prototype.trim()`: drop leading and trailing
whitespace.  Defined structurally on the character list so that it
evaluates inside the kernel. -/
def jsTrim (s : String) : String :=
  ⟨((s.data.dropWhile Char.isWhitespace).reverse.dropWhile
      Char.isWhitespace).reverse⟩

/-- Lookup in a JavaScript object literal viewed as an association list
(`Object.prototype.hasOwnProperty` + member access; object literals have
distinct keys, so first match is the only match). -/
def mapLookup {β : Type} (key : String) : List (String × β) → Option β
  | [] => none
  | (k, v) :: rest => if k = key then some v else mapLookup key rest

/-- First entry of an enum map carrying a given numeric code
(`Object.entries(map).find(([, v]) => v === value)`). -/
def findLabel (code : ℤ) : List (String × Nat) → Option String
  | [] => none
  | (k, v) :: rest => if (v : ℤ) = code then some k else findLabel code rest

/-- `invert` (part_000 line 19): `Object.fromEntries` keeps the last
binding when a code repeats, hence the lookup walks the reversed entry
list.  `INV[raw]` is then `invertLookup map raw`. -/
def invertLookup (map : List (String × Nat)) (code : ℤ) : Option String :=
  findLabel code map.reverse

/-- Read-path enum decode (part_000 lines 188, 191, 203, 206, 209, 222):
`SOME_INV[raw] ?? raw` - an unknown code passes through as the raw
number. -/
def enumDecode (map : List (String × Nat)) (code : ℤ) : String ⊕ ℤ :=
  match invertLookup map code with
  | some label => Sum.inl label
  | none => Sum.inr code

/-- `parseEnumValue` (part_000 lines 20-32).  The input is either a string
label or a numeric code; `none` models the thrown
`invalid <label>: <value>` error.  A string is trimmed and looked up in
the map; a number is matched against the first entry with that code. -/
def parseEnumValue (value : String ⊕ ℤ) (map : List (String × Nat)) :
    Option (ℤ × String) :=
  match value with
  | Sum.inl s =>
    let key := jsTrim s
    match mapLookup key map with
    | some raw => some ((raw : ℤ), key)
    | none => none
  | Sum.inr n =>
    match findLabel n map with
    | some label => some (n, label)
    | none => none

/-- `parseNumeric` (part_000 lines 33-45): `raw = Math.round(num * scale)`;
the echoed text is `raw` itself when `scale = 1`, otherwise `raw / scale`
re-rounded to `Math.round(Math.log10(scale))` decimals.  The write path
only calls this with `scale = 1` or `scale = 100`, for which
`Nat.log 10 scale` equals `Math.round(Math.log10(scale))` (and the
`Math.max(decimals, 0)` clamp is a no-op). -/
def parseNumeric (num : ℚ) (scale : ℕ) : ℤ × ℚ :=
  let raw := jsRound (num * (scale : ℚ))
  if scale = 1 then (raw, (raw : ℚ))
  else
    let decimals := Nat.log 10 scale
    let factor : ℚ := 10 ^ decimals
    (raw, (jsRound (((raw : ℚ) / (scale : ℚ)) * factor) : ℚ) / factor)

/-! Enum maps of `src/unnamed/part_000` (lines 48-89). -/

def NTC_TYPE_MAP : List (String × Nat) :=
  [("None", 0), ("NTC-10K", 1), ("NTC-12K", 2), ("NTC-15K", 3),
   ("NTC-22K", 4), ("NTC-33K", 5), ("NTC-47K", 6)]

def WATER_RELAY_ACTION_MAP : List (String × Nat) :=
  [("No action", 0),
   ("Water alarm: Turn OFF (restore when dry)", 1),
   ("Water alarm: Turn ON (restore when dry)", 2),
   ("Water alarm: Turn OFF (stay off)", 3),
   ("Water alarm: Turn ON (stay on)", 4),
   ("No water: Turn OFF", 5),
   ("No water: Turn ON", 6)]

def NTC1_OPERATION_MAP : List (String × Nat) :=
  [("No action", 0),
   ("OFF when hot, ON when cold", 1),
   ("ON when hot, OFF when cold", 2),
   ("OFF when hot (stay off)", 3),
   ("ON when hot (stay on)", 4)]

def NTC2_OPERATION_MAP : List (String × Nat) :=
  [("No action", 0),
   ("OFF when hot, ON when cold", 1),
   ("ON when hot, OFF when cold", 2),
   ("OFF when hot (stay off)", 3),
   ("ON when hot (stay on)", 4)]

def OVERRIDE_OPTION_MAP : List (String × Nat) :=
  [("No priority", 0),
   ("Water alarm has priority", 1),
   ("Temperature (NTC) has priority", 2)]

/-! Enum maps of `src/namron_30a_relay.mjs` (lines 43-84). -/

def NTC_TYPE_MAP_mjs : List (String × Nat) :=
  [("none", 0), ("ntc_10k", 1), ("ntc_12k", 2), ("ntc_15k", 3),
   ("ntc_22k", 4), ("ntc_33k", 5), ("ntc_47k", 6)]

def WATER_RELAY_ACTION_MAP_mjs : List (String × Nat) :=
  [("no_action", 0), ("alarm_turn_off", 1), ("alarm_turn_on", 2),
   ("alarm_turn_off_no_action", 3), ("alarm_turn_on_no_action", 4),
   ("no_alarm_turn_off", 5), ("no_alarm_turn_on", 6)]

def NTC1_OPERATION_MAP_mjs : List (String × Nat) :=
  [("unuse", 0), ("ntc1_1", 1), ("ntc1_2", 2), ("ntc1_3", 3), ("ntc1_4", 4)]

def NTC2_OPERATION_MAP_mjs : List (String × Nat) :=
  [("unuse", 0), ("ntc2_1", 1), ("ntc2_2", 2), ("ntc2_3", 3), ("ntc2_4", 4)]

def OVERRIDE_OPTION_MAP_mjs : List (String × Nat) :=
  [("no_priority", 0), ("water_alarm_priority", 1), ("ntc_priority", 2)]

/-- The enum maps reachable from `convertSet` (the write path) in the two
snapshots: part_000 `tzLocal.set_private_attribute.convertSet`
(lines 443-497) and the mjs counterpart (lines 487-543). -/
def writePathEnumMaps : List (List (String × Nat)) :=
  [NTC_TYPE_MAP, WATER_RELAY_ACTION_MAP, NTC1_OPERATION_MAP,
   NTC2_OPERATION_MAP, OVERRIDE_OPTION_MAP,
   NTC_TYPE_MAP_mjs, WATER_RELAY_ACTION_MAP_mjs, NTC1_OPERATION_MAP_mjs,
   NTC2_OPERATION_MAP_mjs, OVERRIDE_OPTION_MAP_mjs]

/-! fromZigbee decoders.  Each definition embeds the per-attribute value
computation of the corresponding `convert` function, after the key
resolver has produced the raw value; `none` means the converter emits no
field. -/

/-- part_000 `fzLocal.device_temp_num.convert` (lines 137-151): guard
`raw !== -32768 && raw !== 0x8000 && raw != null`, then
`Math.round((raw / 10) * 10) / 10`. -/
def device_temp_num (raw : ℤ) : Option ℚ :=
  if raw ≠ -32768 ∧ raw ≠ 32768 then
    some ((jsRound (((raw : ℚ) / 10) * 10) : ℚ) / 10)
  else none

/-- part_000 `fzLocal.temp_measurement_num.convert` (lines 154-167):
same sentinel guard, then `Math.round((raw / 100) * 10) / 10`. -/
def temp_measurement_num (raw : ℤ) : Option ℚ :=
  if raw ≠ -32768 ∧ raw ≠ 32768 then
    some ((jsRound (((raw : ℚ) / 100) * 10) : ℚ) / 10)
  else none

/-- part_000 `fzLocal.private_04e0_num.convert`, attribute `0x0000`
handler (lines 182-186): `typeof raw === 'number'` and the sentinel
guard, then `Math.round((raw / 100) * 10) / 10`. -/
def private_04e0_ntc2_temperature (raw : ℤ) : Option ℚ :=
  if raw ≠ -32768 ∧ raw ≠ 32768 then
    some ((jsRound (((raw : ℚ) / 100) * 10) : ℚ) / 10)
  else none

/-- part_000 `fzLocal.private_04e0_num.convert`, attribute `0x0003`
handler (lines 193-195): `out.water_sensor = !raw` (inverted
truthiness). -/
def private_04e0_water_sensor (raw : ℤ) : Bool := !(jsTruthy raw)

/-- mjs `fzLocal.private_04e0_num.convert`, attribute `0x0003` handler
(lines 188-190): `out.water_sensor = !!raw` (plain truthiness, no
inversion). -/
def private_04e0_water_sensor_mjs (raw : ℤ) : Bool := jsTruthy raw

/-- part_000 `fzLocal.private_04e0_num.convert`, attribute `0x0009`
handler (lines 211-215). -/
def private_04e0_ntc1_relay_auto_temp (raw : ℤ) : Option ℚ :=
  if raw ≠ -32768 ∧ raw ≠ 32768 then
    some ((jsRound (((raw : ℚ) / 100) * 10) : ℚ) / 10)
  else none

/-- part_000 `fzLocal.private_04e0_num.convert`, attribute `0x000A`
handler (lines 216-220). -/
def private_04e0_ntc2_relay_auto_temp (raw : ℤ) : Option ℚ :=
  if raw ≠ -32768 ∧ raw ≠ 32768 then
    some ((jsRound (((raw : ℚ) / 100) * 10) : ℚ) / 10)
  else none

/-- part_000 `fzLocal.electrical_num.convert`, voltage (line 254):
`msg.data[voltKey] / 10` ("Scale down 10 and keep as-is", no rounding). -/
def electrical_num_voltage (raw : ℚ) : ℚ := raw / 10

/-- part_000 `fzLocal.electrical_num.convert`, current (line 255):
`Math.round((raw / 1000) * 100) / 100` (2 decimals). -/
def electrical_num_current (raw : ℚ) : ℚ :=
  (jsRound (raw / 1000 * 100) : ℚ) / 100

/-- part_000 `fzLocal.electrical_num.convert`, power (line 256): raw value
passed through. -/
def electrical_num_power (raw : ℚ) : ℚ := raw

/-- mjs `fzLocal.electrical_num.convert`, voltage (line 249):
`Math.round((raw / 10) * 10) / 10`. -/
def electrical_num_voltage_mjs (raw : ℚ) : ℚ :=
  (jsRound (raw / 10 * 10) : ℚ) / 10

/-- mjs `fzLocal.electrical_num.convert`, current (line 250):
`Math.round((raw / 1000) * 1000) / 1000` (3 decimals). -/
def electrical_num_current_mjs (raw : ℚ) : ℚ :=
  (jsRound (raw / 1000 * 1000) : ℚ) / 1000

/-- part_000 `fzLocal.metering_num.convert` (lines 262-275):
`Math.round(raw / 100 * 100) / 100` ("Divide by 100, round to 2
decimals"). -/
def metering_num (raw : ℚ) : ℚ := (jsRound (raw / 100 * 100) : ℚ) / 100

/-- mjs `fzLocal.metering_num.convert` (lines 257-270):
`Math.round((raw / 1000) * 1000) / 1000`. -/
def metering_num_mjs (raw : ℚ) : ℚ :=
  (jsRound (raw / 1000 * 1000) : ℚ) / 1000

/-! toZigbee `convertGet` refresh-path decoders (value computed from the
raw attribute delivered by `entity.read`). -/

/-- part_000 `tzLocal.get_attribute.convertGet`, case
`device_temperature` (lines 291-297): sentinel guard, then `val = raw` -
the raw reading is returned without any scaling. -/
def get_device_temperature (raw : ℤ) : Option ℚ :=
  if raw ≠ -32768 ∧ raw ≠ 32768 then some ((raw : ℚ)) else none

/-- mjs `tzLocal.get_attribute.convertGet`, case `device_temperature`
(lines 317-325): sentinel guard, then `Math.round((raw/10)*10)/10`. -/
def get_device_temperature_mjs (raw : ℤ) : Option ℚ :=
  if raw ≠ -32768 ∧ raw ≠ 32768 then
    some ((jsRound (((raw : ℚ) / 10) * 10) : ℚ) / 10)
  else none

/-- part_000 `tzLocal.get_attribute.convertGet`, case `water_sensor`
(lines 314-321): `const state = !raw` (inverted truthiness). -/
def get_water_sensor (raw : ℤ) : Bool := !(jsTruthy raw)

/-! Polling driver (`onEvent`).  The global registry
`globalThis.__namron4512785_poll__` is a `Map` from device `ieeeAddr` to
the `setInterval` handle; `PollState.next` supplies fresh handles. -/

structure PollState where
  timers : List (String × Nat)
  next : Nat
deriving DecidableEq

/-- Number of registry entries for one device identity. -/
def countFor (key : String) (timers : List (String × Nat)) : Nat :=
  (timers.filter (fun p => p.1 = key)).length

/-- JavaScript `Map.set`: replaces in place when the key exists, appends
otherwise (insertion order preserved). -/
def mapSet (l : List (String × Nat)) (key : String) (v : Nat) :
    List (String × Nat) :=
  if (mapLookup key l).isSome then
    l.map (fun p => if p.1 = key then (p.1, v) else p)
  else l ++ [(key, v)]

/-- JavaScript `Map.delete`. -/
def mapDelete (l : List (String × Nat)) (key : String) :
    List (String × Nat) :=
  l.filter (fun p => p.1 ≠ key)

/-- part_000 `onEvent` (lines 679-719).  The guard at line 688 returns
early when there is no device, no `ieeeAddr`, or the event type is
`start` or `stop`; the explicit `stop` cleanup branch (lines 696-702)
sits after that guard and is therefore unreachable, but is kept here as
in the source.  Any other device-scoped event ensures a poll timer
exists for the device (`setInterval` + `Map.set`), unless one is already
registered. -/
def onEvent_v140 (eventType : String) (ieeeAddr : Option String)
    (st : PollState) : PollState :=
  match ieeeAddr with
  | none => st
  | some key =>
    if eventType = "start" ∨ eventType = "stop" then st
    else if eventType = "stop" then
      { st with timers := mapDelete st.timers key }
    else
      match mapLookup key st.timers with
      | some _ => st
      | none => { timers := mapSet st.timers key st.next, next := st.next + 1 }

/-- mjs `onEvent` (lines 680-716): `start` and `deviceAnnounce` ensure a
timer (no-op when one is registered); `stop` clears and deletes the
entry. -/
def onEvent_mjs (eventType : String) (ieeeAddr : Option String)
    (st : PollState) : PollState :=
  match ieeeAddr with
  | none => st
  | some key =>
    let st1 :=
      if eventType = "start" ∨ eventType = "deviceAnnounce" then
        match mapLookup key st.timers with
        | some _ => st
        | none => { timers := mapSet st.timers key st.next, next := st.next + 1 }
      else st
    if eventType = "stop" then { st1 with timers := mapDelete st1.timers key }
    else st1

/-! Device setup orchestrator (`configure`).  Each transport call
(`reporting.bind`, the reporting helpers, `configureReporting`, and the
seed `safeRead`s) is wrapped in its own `try/catch`; the model records
which calls were attempted and whether an uncaught exception aborted the
run. -/

structure Trace where
  calls : List String
  aborted : Bool
deriving DecidableEq

/-- One awaited transport call: appends to the log and throws (sets
`aborted`) exactly when `fails` says so; a no-op on an already-aborted
trace. -/
def transportCall (name : String) (fails : String → Bool) (t : Trace) :
    Trace :=
  if t.aborted then t
  else { calls := t.calls ++ [name], aborted := fails name }

/-- A JavaScript `try { body } catch (err) { log }` block: the body runs
and any exception it raises is swallowed. -/
def tryCatchStep (body : Trace → Trace) (t : Trace) : Trace :=
  if t.aborted then t
  else { body t with aborted := false }

/-- Run the listed transport calls in order, each inside its own
`try/catch`, as `configure` does. -/
def runSteps (steps : List String) (fails : String → Bool) (t : Trace) :
    Trace :=
  match steps with
  | [] => t
  | s :: rest => runSteps rest fails (tryCatchStep (transportCall s fails) t)

/-- The transport calls of part_000 `configure` (lines 564-678) in source
order: the five-cluster bind, the reporting configurations, and the seed
reads (`safeRead` wraps each read in its own `try/catch`). -/
def configureSteps_v140 : List String :=
  ["bind", "onOffRpt", "temperatureRpt", "rmsVoltageRpt", "rmsCurrentRpt",
   "activePowerRpt", "deviceTempRpt", "meteringRpt", "private04E0Rpt",
   "read:genOnOff", "read:genDeviceTempCfg", "read:msTemperatureMeasurement",
   "read:haElectricalMeasurement", "read:seMetering",
   "read:04E0:ntc2_temp/water_sensor", "read:04E0:ntc1_type/ntc2_type",
   "read:04E0:ntc1_operation/ntc2_operation"]

/-- The transport calls of mjs `configure` (lines 614-678) in source
order. -/
def configureSteps_mjs : List String :=
  ["bind", "onOffRpt", "temperatureRpt", "rmsVoltageRpt", "rmsCurrentRpt",
   "activePowerRpt", "deviceTempRpt", "meteringRpt",
   "read:genOnOff", "read:genDeviceTempCfg", "read:msTemperatureMeasurement",
   "read:haElectricalMeasurement", "read:04E0:ntc2/water"]

/-- part_000 `configure`: returns immediately when no endpoint is found
(line 577), otherwise performs every step, each in its own
`try/catch`. -/
def configure_v140 (hasEndpoint : Bool) (fails : String → Bool) : Trace :=
  if hasEndpoint then runSteps configureSteps_v140 fails ⟨[], false⟩
  else ⟨[], false⟩

/-- mjs `configure`, same shape. -/
def configure_mjs (hasEndpoint : Bool) (fails : String → Bool) : Trace :=
  if hasEndpoint then runSteps configureSteps_mjs fails ⟨[], false⟩
  else ⟨[], false⟩

/-! Helper lemmas. -/

/-- `Math.round` is the identity on integers. -/
theorem jsRound_intCast (n : ℤ) : jsRound (n : ℚ) = n := by
  unfold jsRound
  rw [Int.floor_eq_iff]
  constructor
  · linarith
  · linarith

theorem mapLookup_eq_none_of_forall {β : Type} (l : List (String × β))
    (a : String) (h : ∀ p ∈ l, p.1 ≠ a) : mapLookup a l = none := by
  induction l with
  | nil => rfl
  | cons p t ih =>
    obtain ⟨k, b⟩ := p
    have hk : k ≠ a := h (k, b) (List.mem_cons_self _ _)
    simp only [mapLookup, if_neg hk]
    exact ih (fun q hq => h q (List.mem_cons_of_mem _ hq))

theorem mapSet_of_lookup_none (l : List (String × Nat)) (key : String)
    (v : Nat) (h : mapLookup key l = none) : mapSet l key v = l ++ [(key, v)] := by
  simp [mapSet, h]

theorem mapLookup_append_of_none (l : List (String × Nat)) (key : String)
    (v : Nat) (h : mapLookup key l = none) :
    mapLookup key (l ++ [(key, v)]) = some v := by
  induction l with
  | nil => simp [mapLookup]
  | cons p t ih =>
    obtain ⟨k, b⟩ := p
    by_cases hk : k = key
    · simp [mapLookup, hk] at h
    · simp only [List.cons_append, mapLookup, if_neg hk] at h ⊢
      exact ih h

theorem countFor_of_lookup_none (key : String) (l : List (String × Nat))
    (h : mapLookup key l = none) : countFor key l = 0 := by
  induction l with
  | nil => rfl
  | cons p t ih =>
    obtain ⟨k, b⟩ := p
    by_cases hk : k = key
    · simp [mapLookup, hk] at h
    · simp only [mapLookup, if_neg hk] at h
      simp only [countFor, List.filter]
      rw [show (decide ((k, b).1 = key)) = false by simp [hk]]
      exact ih h

theorem countFor_append_single (key : String) (l : List (String × Nat))
    (v : Nat) : countFor key (l ++ [(key, v)]) = countFor key l + 1 := by
  simp [countFor, List.filter_append]

/-- A run of try/catch-wrapped transport calls starting from a live trace
attempts every step and never ends aborted, whatever the failure
pattern. -/
theorem runSteps_ok (steps : List String) (fails : String → Bool) (t : Trace)
    (ht : t.aborted = false) :
    runSteps steps fails t = ⟨t.calls ++ steps, false⟩ := by
  induction steps generalizing t with
  | nil =>
    obtain ⟨c, a⟩ := t
    simp only at ht
    subst ht
    simp [runSteps]
  | cons s rest ih =>
    have hstep : tryCatchStep (transportCall s fails) t = ⟨t.calls ++ [s], false⟩ := by
      unfold tryCatchStep transportCall
      simp [ht]
    simp only [runSteps]
    rw [hstep, ih ⟨t.calls ++ [s], false⟩ rfl]
    simp

/-! Claim theorems. -/

/-- C1 (corrected, counterexample): in the `namron_30a_relay.mjs` variant
the attribute 0x0003 decode is `!!raw`, so raw = 1 decodes to semantic
`true`, not `false`: the polarity inversion is not applied on every decode
of private-cluster attribute 0x0003 in this repository. -/
theorem water_sensor_mjs_raw_one_true :
    private_04e0_water_sensor_mjs 1 = true
  ∧ ¬(private_04e0_water_sensor_mjs 1 = false) := by
  constructor <;> decide

/-- C1 (amended): in the part_000 (v1.4.0) converter, attribute 0x0003 is
decoded with inverted polarity on both the report path and the refresh
path: every truthy raw value (raw ≠ 0) yields `water_sensor = false` and
raw 0 yields `true`. -/
theorem water_sensor_polarity_v140 (raw : ℤ) (h : raw ≠ 0) :
    private_04e0_water_sensor raw = false
  ∧ get_water_sensor raw = false
  ∧ private_04e0_water_sensor 0 = true
  ∧ get_water_sensor 0 = true := by
  refine ⟨?_, ?_, rfl, rfl⟩ <;>
    simp [private_04e0_water_sensor, get_water_sensor, jsTruthy, h]

/-- C1 witness: the amended polarity statement evaluated at raw = 1. -/
theorem water_sensor_polarity_v140_witness :
    (1 : ℤ) ≠ 0
  ∧ (private_04e0_water_sensor 1 = false
    ∧ get_water_sensor 1 = false
    ∧ private_04e0_water_sensor 0 = true
    ∧ get_water_sensor 0 = true) :=
  ⟨by decide, water_sensor_polarity_v140 1 (by decide)⟩

/-- C2 (corrected, counterexample): the `namron_30a_relay.mjs` variant of
the seMetering 0x0000 decode divides by 1000, so raw 28427 decodes to
28.427, not 284.27. -/
theorem metering_mjs_28427 :
    metering_num_mjs 28427 = 28427 / 1000
  ∧ ¬(metering_num_mjs 28427 = 28427 / 100) := by
  constructor <;> norm_num [metering_num_mjs, jsRound]

/-- C2 (amended): in the part_000 (v1.4.0) converter the energy decode is
raw / 100 rounded to 2 decimal places; on integer raw values this is
exactly raw / 100, and raw 28427 decodes to 284.27. -/
theorem metering_decode_v140_div100 :
    (∀ raw : ℚ, metering_num raw = roundTo 2 (raw / 100))
  ∧ (∀ raw : ℤ, metering_num (raw : ℚ) = (raw : ℚ) / 100)
  ∧ metering_num 28427 = 28427 / 100 := by
  refine ⟨fun raw => ?_, fun raw => ?_, ?_⟩
  · norm_num [metering_num, roundTo]
  · unfold metering_num
    rw [div_mul_cancel₀ _ (by norm_num : (100 : ℚ) ≠ 0), jsRound_intCast]
  · norm_num [metering_num, jsRound]

/-- C3: every scaledTemperature decoder (device_temperature,
ntc1_temperature, ntc2_temperature, ntc1/ntc2_relay_auto_temp) maps the
sentinel raw values -32768 and 0x8000 = 32768 to "no reading" (`none`),
never to a scaled number. -/
theorem scaled_temperature_sentinel_no_reading :
    device_temp_num (-32768) = none ∧ device_temp_num 32768 = none
  ∧ temp_measurement_num (-32768) = none ∧ temp_measurement_num 32768 = none
  ∧ private_04e0_ntc2_temperature (-32768) = none
  ∧ private_04e0_ntc2_temperature 32768 = none
  ∧ private_04e0_ntc1_relay_auto_temp (-32768) = none
  ∧ private_04e0_ntc1_relay_auto_temp 32768 = none
  ∧ private_04e0_ntc2_relay_auto_temp (-32768) = none
  ∧ private_04e0_ntc2_relay_auto_temp 32768 = none := by
  decide

/-- C4: for every enum map on the write path (both snapshots) and every
label in it, encoding the label yields its code with the label echoed,
and the read-path decode maps that code back to the same label; a string
whose trimmed form is not a key of the map fails (`none`, the thrown
InvalidValue error); writing `ntc1_sensor_type = "NTC-10K"` encodes to
wire value 1 with echoed label "NTC-10K". -/
theorem enum_roundtrip_write_path :
    (∀ map ∈ writePathEnumMaps, ∀ p ∈ map,
        parseEnumValue (Sum.inl p.1) map = some ((p.2 : ℤ), p.1)
      ∧ enumDecode map (p.2 : ℤ) = Sum.inl p.1)
  ∧ (∀ map ∈ writePathEnumMaps, ∀ s : String,
        (∀ p ∈ map, p.1 ≠ jsTrim s) → parseEnumValue (Sum.inl s) map = none)
  ∧ parseEnumValue (Sum.inl "NTC-10K") NTC_TYPE_MAP = some (1, "NTC-10K") := by
  refine ⟨by decide, ?_, by decide⟩
  intro map hm s hs
  have hl : mapLookup (jsTrim s) map = none :=
    mapLookup_eq_none_of_forall map (jsTrim s) hs
  simp [parseEnumValue, hl]

/-- C4 witness: the round trip evaluated on the NTC-10K scenario and the
unknown-label failure on "bogus". -/
theorem enum_roundtrip_write_path_witness :
    (parseEnumValue (Sum.inl "NTC-10K") NTC_TYPE_MAP = some (1, "NTC-10K")
      ∧ enumDecode NTC_TYPE_MAP 1 = Sum.inl "NTC-10K")
  ∧ parseEnumValue (Sum.inl "bogus") NTC_TYPE_MAP = none :=
  ⟨enum_roundtrip_write_path.1 NTC_TYPE_MAP (by decide) ("NTC-10K", 1) (by decide),
   enum_roundtrip_write_path.2.1 NTC_TYPE_MAP (by decide) "bogus" (by decide)⟩

/-- C5 (corrected, counterexample): the write-path encode uses JavaScript
`Math.round` (half toward +∞): -30.5 at scale 1 encodes to -30, while
round-half-away-from-zero would give -31. -/
theorem parseNumeric_neg_half_rounds_up :
    (parseNumeric (-61/2 : ℚ) 1).1 = -30
  ∧ roundHalfAwayFromZero ((-61/2 : ℚ) * ((1 : ℕ) : ℚ)) = -31
  ∧ ((-30 : ℤ) ≠ -31) := by
  refine ⟨?_, ?_, by decide⟩
  · norm_num [parseNumeric, jsRound]
  · norm_num [roundHalfAwayFromZero]

/-- C5 (amended): the encoded raw integer is `Math.round(v * s)`, i.e.
`⌊v·s + 1/2⌋`; whenever `v·s ≥ 0` this coincides with
round-half-away-from-zero (for negative exact halves it instead rounds
toward zero, see the counterexample). -/
theorem parseNumeric_half_away_nonneg (v : ℚ) (s : ℕ)
    (h : 0 ≤ v * (s : ℚ)) :
    (parseNumeric v s).1 = roundHalfAwayFromZero (v * (s : ℚ)) := by
  have h1 : (parseNumeric v s).1 = jsRound (v * (s : ℚ)) := by
    simp only [parseNumeric]
    split <;> rfl
  rw [h1]
  unfold roundHalfAwayFromZero jsRound
  rw [if_pos h]

/-- C5 witness: the amended rounding statement evaluated at v = 2.5,
scale 1. -/
theorem parseNumeric_half_away_nonneg_witness :
    (0 : ℚ) ≤ (5/2 : ℚ) * ((1 : ℕ) : ℚ)
  ∧ (parseNumeric (5/2 : ℚ) 1).1 = roundHalfAwayFromZero ((5/2 : ℚ) * ((1 : ℕ) : ℚ)) :=
  ⟨by norm_num, parseNumeric_half_away_nonneg (5/2) 1 (by norm_num)⟩

/-- C6 (corrected, counterexample): the `namron_30a_relay.mjs` variant
rounds current to 3 decimals, so raw 3290 + 5 = 3295 decodes to 3.295
rather than to the 2-decimal rounding 3.3 the claim prescribes. -/
theorem current_mjs_not_two_decimals :
    electrical_num_current_mjs 3295 = 659 / 200
  ∧ ¬(electrical_num_current_mjs 3295 = roundTo 2 ((3295 : ℚ) / 1000)) := by
  constructor <;> norm_num [electrical_num_current_mjs, roundTo, jsRound]

/-- C6 (amended): in the part_000 (v1.4.0) converter, voltage is raw / 10
(which on integer raw equals raw / 10 rounded to 1 decimal; raw 2319 ↦
231.9) and current is raw / 1000 rounded to 2 decimals (raw 3290 ↦
3.29). -/
theorem electrical_decode_v140_scaling :
    (∀ raw : ℤ, electrical_num_voltage (raw : ℚ) = roundTo 1 ((raw : ℚ) / 10))
  ∧ (∀ raw : ℚ, electrical_num_current raw = roundTo 2 (raw / 1000))
  ∧ electrical_num_voltage 2319 = 2319 / 10
  ∧ electrical_num_current 3290 = 329 / 100 := by
  refine ⟨fun raw => ?_, fun raw => ?_, ?_, ?_⟩
  · unfold electrical_num_voltage roundTo
    rw [pow_one, div_mul_cancel₀ _ (by norm_num : (10 : ℚ) ≠ 0), jsRound_intCast]
  · norm_num [electrical_num_current, roundTo]
  · norm_num [electrical_num_voltage]
  · norm_num [electrical_num_current, jsRound]

/-- C7 (corrected, counterexample): in the part_000 (v1.4.0) converter a
literal `start` event is ignored entirely - two successive `start`
events for the same identity leave zero timers, not one. -/
theorem poll_start_event_ignored_v140 :
    (onEvent_v140 "start" (some "0x00124b000001")
      (onEvent_v140 "start" (some "0x00124b000001") ⟨[], 0⟩)).timers = []
  ∧ ¬(countFor "0x00124b000001"
      (onEvent_v140 "start" (some "0x00124b000001")
        (onEvent_v140 "start" (some "0x00124b000001") ⟨[], 0⟩)).timers = 1) := by
  constructor <;> decide

/-- C7 (amended): for an identity with no registered timer, one
polling-start trigger registers exactly one timer and a second trigger is
a literal no-op (the state, and hence the original timer handle, is
unchanged): in v1.4.0 the trigger is any device-scoped event other than
`start`/`stop` (e.g. `deviceAnnounce`), in the mjs variant the triggers
are `start` and `deviceAnnounce`. -/
theorem poll_second_start_single_timer (key : String) (st : PollState)
    (h : mapLookup key st.timers = none) :
    (countFor key (onEvent_v140 "deviceAnnounce" (some key) st).timers = 1
      ∧ onEvent_v140 "deviceAnnounce" (some key)
          (onEvent_v140 "deviceAnnounce" (some key) st)
        = onEvent_v140 "deviceAnnounce" (some key) st)
  ∧ (countFor key (onEvent_mjs "start" (some key) st).timers = 1
      ∧ onEvent_mjs "start" (some key) (onEvent_mjs "start" (some key) st)
        = onEvent_mjs "start" (some key) st)
  ∧ (countFor key (onEvent_mjs "deviceAnnounce" (some key) st).timers = 1
      ∧ onEvent_mjs "deviceAnnounce" (some key)
          (onEvent_mjs "deviceAnnounce" (some key) st)
        = onEvent_mjs "deviceAnnounce" (some key) st) := by
  have hda1 : ¬(("deviceAnnounce" : String) = "start"
      ∨ ("deviceAnnounce" : String) = "stop") := by decide
  have hda2 : ¬(("deviceAnnounce" : String) = "stop") := by decide
  have hst1 : (("start" : String) = "start"
      ∨ ("start" : String) = "deviceAnnounce") := Or.inl rfl
  have hst2 : ¬(("start" : String) = "stop") := by decide
  have hda3 : (("deviceAnnounce" : String) = "start"
      ∨ ("deviceAnnounce" : String) = "deviceAnnounce") := Or.inr rfl
  have e1 : onEvent_v140 "deviceAnnounce" (some key) st
      = ⟨st.timers ++ [(key, st.next)], st.next + 1⟩ := by
    simp only [onEvent_v140, if_neg hda1, if_neg hda2, h,
      mapSet_of_lookup_none _ _ _ h]
  have e2 : onEvent_mjs "start" (some key) st
      = ⟨st.timers ++ [(key, st.next)], st.next + 1⟩ := by
    simp only [onEvent_mjs, if_pos hst1, if_neg hst2, h,
      mapSet_of_lookup_none _ _ _ h]
    simp
  have e3 : onEvent_mjs "deviceAnnounce" (some key) st
      = ⟨st.timers ++ [(key, st.next)], st.next + 1⟩ := by
    simp only [onEvent_mjs, if_pos hda3, if_neg hda2, h,
      mapSet_of_lookup_none _ _ _ h]
    simp
  have hl : mapLookup key (st.timers ++ [(key, st.next)]) = some st.next :=
    mapLookup_append_of_none _ _ _ h
  have hcount : countFor key (st.timers ++ [(key, st.next)]) = 1 := by
    rw [countFor_append_single, countFor_of_lookup_none key st.timers h]
  refine ⟨⟨?_, ?_⟩, ⟨?_, ?_⟩, ⟨?_, ?_⟩⟩
  · rw [e1]; exact hcount
  · rw [e1]; simp only [onEvent_v140, if_neg hda1, if_neg hda2, hl]
  · rw [e2]; exact hcount
  · rw [e2]; simp only [onEvent_mjs, if_pos hst1, if_neg hst2, hl]; simp
  · rw [e3]; exact hcount
  · rw [e3]; simp only [onEvent_mjs, if_pos hda3, if_neg hda2, hl]; simp

/-- C7 witness: the single-timer statement evaluated for a fresh device
identity and the empty registry. -/
theorem poll_second_start_single_timer_witness :
    (countFor "0x00124b000001"
        (onEvent_v140 "deviceAnnounce" (some "0x00124b000001") ⟨[], 0⟩).timers = 1
      ∧ onEvent_v140 "deviceAnnounce" (some "0x00124b000001")
          (onEvent_v140 "deviceAnnounce" (some "0x00124b000001") ⟨[], 0⟩)
        = onEvent_v140 "deviceAnnounce" (some "0x00124b000001") ⟨[], 0⟩)
  ∧ (countFor "0x00124b000001"
        (onEvent_mjs "start" (some "0x00124b000001") ⟨[], 0⟩).timers = 1
      ∧ onEvent_mjs "start" (some "0x00124b000001")
          (onEvent_mjs "start" (some "0x00124b000001") ⟨[], 0⟩)
        = onEvent_mjs "start" (some "0x00124b000001") ⟨[], 0⟩)
  ∧ (countFor "0x00124b000001"
        (onEvent_mjs "deviceAnnounce" (some "0x00124b000001") ⟨[], 0⟩).timers = 1
      ∧ onEvent_mjs "deviceAnnounce" (some "0x00124b000001")
          (onEvent_mjs "deviceAnnounce" (some "0x00124b000001") ⟨[], 0⟩)
        = onEvent_mjs "deviceAnnounce" (some "0x00124b000001") ⟨[], 0⟩) :=
  poll_second_start_single_timer "0x00124b000001" ⟨[], 0⟩ rfl

/-- C8 (code bug): in the part_000 (v1.4.0) converter a `stop` event is a
no-op for every state - the early return at line 688 fires on `stop`, so
the explicit stop-cleanup branch (lines 696-702) is unreachable and a
polling device keeps its timer registered; the mjs variant does remove
the entry on `stop`. -/
theorem poll_stop_leaves_timer_v140 :
    (∀ (key : String) (st : PollState), onEvent_v140 "stop" (some key) st = st)
  ∧ countFor "0x00124b000001"
      (onEvent_v140 "stop" (some "0x00124b000001")
        ⟨[("0x00124b000001", 7)], 8⟩).timers = 1
  ∧ countFor "0x00124b000001"
      (onEvent_mjs "stop" (some "0x00124b000001")
        ⟨[("0x00124b000001", 7)], 8⟩).timers = 0 := by
  refine ⟨fun key st => ?_, by decide, by decide⟩
  simp only [onEvent_v140]
  simp

/-- C9: whatever pattern of transport failures occurs - in particular
when the cluster-binding step throws - both configure orchestrators
attempt every setup step (all reporting configurations and all seed
reads) and finish without an uncaught exception, because each step is
wrapped in its own try/catch. -/
theorem configure_steps_all_execute (fails : String → Bool)
    (_hbind : fails "bind" = true) :
    (configure_v140 true fails).calls = configureSteps_v140
  ∧ (configure_v140 true fails).aborted = false
  ∧ (configure_mjs true fails).calls = configureSteps_mjs
  ∧ (configure_mjs true fails).aborted = false := by
  have h1 := runSteps_ok configureSteps_v140 fails ⟨[], false⟩ rfl
  have h2 := runSteps_ok configureSteps_mjs fails ⟨[], false⟩ rfl
  refine ⟨?_, ?_, ?_, ?_⟩ <;> simp [configure_v140, configure_mjs, h1, h2]

/-- C9 witness: every step executes even when every transport call
(including the bind) throws. -/
theorem configure_steps_all_execute_witness :
    ((fun _ => true) : String → Bool) "bind" = true
  ∧ (configure_v140 true (fun _ => true)).calls = configureSteps_v140 :=
  ⟨rfl, (configure_steps_all_execute (fun _ => true) rfl).1⟩

/-- C10 (code bug): in the part_000 (v1.4.0) converter the refresh path
for device_temperature returns the raw reading unscaled (raw 416 ↦ 416)
while the report path divides by 10 (raw 416 ↦ 41.6), so the two paths
disagree on every nonzero accepted raw; in the mjs variant the two paths
agree on all raw readings. -/
theorem device_temperature_get_unscaled_v140 :
    get_device_temperature 416 = some 416
  ∧ device_temp_num 416 = some (208 / 5)
  ∧ ¬((416 : ℚ) = 208 / 5)
  ∧ (∀ raw : ℤ, get_device_temperature_mjs raw = device_temp_num raw) := by
  refine ⟨by decide, ?_, by norm_num, fun raw => rfl⟩
  norm_num [device_temp_num, jsRound]
